import Mathlib

/-!
Shallow embedding of the authentication/authorization core of the
`saas-forge-api` repository (NestJS + Mongoose), covering:

* `src/user/schemas/user.schema.ts` (the persisted User record and its
  field-level projection attributes),
* `src/user/user.service.ts` (lookups, refresh-token store adapter),
* `src/auth/auth.service.ts` (register, login, token issuance),
* `src/auth/auth.controller.ts` (the refresh and logout flows),
* `src/auth/jwt.strategy.ts` (payload-to-identity validation),
* `src/common/guards/roles.guard.ts` (global role guard),
* `src/common/guards/TenantRoles.guard.ts` (tenant-scoped role guard) and
  `src/tenant/schemas/*.ts` (tenant membership records).

Modelling conventions:

* `bcrypt.hash`/`bcrypt.compare` are modelled as an ideal one-way function:
  a stored hash is a pair of the hashed value and the salt used, and
  comparison succeeds exactly when the plaintext equals the hashed value.
  Refresh tokens are hashed as whole `Jwt` values; this is faithful because
  JWT serialization is injective on the signed fields.
* `jsonwebtoken` signing/verification is modelled structurally: a token
  records its payload, the secret it was signed with, the issue instant and
  the expiry instant; verification checks the secret and that the clock is
  before expiry.
* Mongoose projections (`select('-password')`, `select('+password')`,
  schema-level `select: false`) are modelled by `projectUser`: a projected
  field is `none` when excluded.  The `password` prop carries
  `select: false` in the schema and every query either keeps that default
  or writes `-password`/`+password` explicitly; `refreshToken` carries no
  `select: false` and no query ever excludes it.
* Each stateful operation threads the database (`Db`) explicitly; fresh
  salts and the current clock are passed as arguments since they are
  ambient effects in the source.
-/

namespace SaasForge

/-- HTTP-mapped exception kinds thrown by the source
(`ConflictException`, `UnauthorizedException`, `ForbiddenException`, ...).
`infrastructure` stands for non-HTTP rejections (e.g. a rejected
`jwt.verifyAsync` promise or a library-level type error). -/
inductive HttpError where
  | conflict (msg : String)
  | unauthorized (msg : String)
  | forbidden (msg : String)
  | notFound (msg : String)
  | badRequest (msg : String)
  | infrastructure (msg : String)
deriving DecidableEq, Repr

/-- A bcrypt hash of a value of type `α`, idealized: it remembers the
hashed value and the salt.  One-wayness is irrelevant to the verified
properties; only the comparison behaviour matters. -/
structure Hashed (α : Type) where
  plain : α
  salt : Nat
deriving DecidableEq, Repr

/-- Model of `bcrypt.hash(x, rounds)` with an explicit fresh salt. -/
def bcryptHash {α : Type} (x : α) (salt : Nat) : Hashed α := ⟨x, salt⟩

/-- Model of `bcrypt.compare(x, stored)`: succeeds exactly when the
presented plaintext is the one that was hashed. -/
def bcryptCompare {α : Type} [BEq α] (x : α) (stored : Hashed α) : Bool :=
  stored.plain == x

/-- The JWT payload built by `AuthService.generateTokens`:
`{ sub: user._id, email: user.email, roles: user.roles, isActive: user.isActive }`.
`roles` is an `Option` because the `User` schema declares no `roles` field,
so the property access can yield `undefined`. -/
structure JwtPayload where
  sub : String
  email : String
  roles : Option (List String)
  isActive : Bool
deriving DecidableEq, Repr

/-- The two signing secrets: `JWT_SECRET` and `JWT_REFRESH_SECRET`. -/
inductive JwtSecret where
  | access
  | refresh
deriving DecidableEq, Repr

/-- A signed token: payload, signing secret, issue instant, expiry instant
(seconds). -/
structure Jwt where
  payload : JwtPayload
  secret : JwtSecret
  iat : Nat
  exp : Nat
deriving DecidableEq, Repr

/-- `jwtService.sign(payload, { expiresIn, secret })` at clock `now`. -/
def jwtSign (payload : JwtPayload) (secret : JwtSecret) (expiresInSec : Nat) (now : Nat) : Jwt :=
  { payload := payload, secret := secret, iat := now, exp := now + expiresInSec }

/-- `jwtService.verifyAsync(token, { secret })` at clock `now`: checks the
signing secret and expiry; yields the payload on success. -/
def jwtVerify (token : Jwt) (secret : JwtSecret) (now : Nat) : Option JwtPayload :=
  if token.secret = secret ∧ now < token.exp then some token.payload else none

/-- An entry of `User.tenants` (`userTenant.schema.ts`). -/
structure UserTenant where
  tenantId : String
  default : Bool
deriving DecidableEq, Repr

/-- The persisted User document (`user.schema.ts`): `email` (unique),
`password` (with `select: false`), `isActive` (default `true`),
`refreshToken` (default `null`, no `select: false`), `tenants`. -/
structure UserDoc where
  id : String
  email : String
  password : Hashed String
  isActive : Bool
  refreshToken : Option (Hashed Jwt)
  tenants : List UserTenant
deriving DecidableEq, Repr

/-- A user document as returned by a query, after field projection.
`password = none` means the field was excluded by the projection.
For `refreshToken` the outer `Option` is the projection (present on every
query path in the source) and the inner `Option` is the stored
nullable value. -/
structure UserQueryResult where
  id : String
  email : String
  password : Option (Hashed String)
  isActive : Bool
  refreshToken : Option (Option (Hashed Jwt))
  tenants : List UserTenant
deriving DecidableEq, Repr

/-- The document store visible to `UserService`: the `users` collection
plus a fresh-id counter standing for ObjectId generation. -/
structure Db where
  users : List UserDoc
  nextId : Nat
deriving DecidableEq, Repr

/-- Field projection applied by the `UserService` queries.
`password` is included only under an explicit `+password`
(`select: false` in the schema, and the default paths write `-password`);
`refreshToken` has no `select: false` and no query excludes it, so it is
always included. -/
def projectUser (includePassword : Bool) (u : UserDoc) : UserQueryResult :=
  { id := u.id
    email := u.email
    password := if includePassword then some u.password else none
    isActive := u.isActive
    refreshToken := some u.refreshToken
    tenants := u.tenants }

/-- `UserService.findByEmail(email, includePassword = false)`:
`userModel.findOne({ email }).select(includePassword ? '+password' : '-password')`. -/
def UserService.findByEmail (db : Db) (email : String) (includePassword : Bool := false) :
    Option UserQueryResult :=
  (db.users.find? (fun u => u.email == email)).map (projectUser includePassword)

/-- `UserService.findById(id)`: `userModel.findById(id).select('-password')`. -/
def UserService.findById (db : Db) (id : String) : Option UserQueryResult :=
  (db.users.find? (fun u => u.id == id)).map (projectUser false)

/-- `UserService.getAllUsers()`: `userModel.find().select('-password')`. -/
def UserService.getAllUsers (db : Db) : List UserQueryResult :=
  db.users.map (projectUser false)

/-- `UserService.create(email, password)`: persists a new user; schema
defaults give `isActive = true`, `refreshToken = null`, `tenants = []`. -/
def UserService.create (db : Db) (email : String) (password : Hashed String) :
    Db × UserDoc :=
  let newUser : UserDoc :=
    { id := toString db.nextId
      email := email
      password := password
      isActive := true
      refreshToken := none
      tenants := [] }
  ({ users := db.users ++ [newUser], nextId := db.nextId + 1 }, newUser)

/-- `UserService.updateRefreshToken(userId, refreshToken)`:
`userModel.findByIdAndUpdate(userId, { refreshToken })`. -/
def UserService.updateRefreshToken (db : Db) (userId : String)
    (refreshToken : Option (Hashed Jwt)) : Db :=
  { db with
    users := db.users.map fun u =>
      if u.id == userId then { u with refreshToken := refreshToken } else u }

/-- `UserService.removeRefreshToken(userId)`:
`userModel.findByIdAndUpdate(userId, { refreshToken: null })`. -/
def UserService.removeRefreshToken (db : Db) (userId : String) : Db :=
  { db with
    users := db.users.map fun u =>
      if u.id == userId then { u with refreshToken := none } else u }

/-- `AuthService.register(email, password)`: conflict on an existing email,
otherwise hash the password with a fresh salt and persist. -/
def AuthService.register (db : Db) (salt : Nat) (email password : String) :
    Except HttpError (Db × UserDoc) :=
  match UserService.findByEmail db email with
  | some _ => .error (.conflict ("User with email " ++ email ++ " already exists"))
  | none =>
    let hashed := bcryptHash password salt
    let created := UserService.create db email hashed
    .ok created

/-- `AuthService.generateTokens(user)`: one payload, signed twice —
access token (`expiresIn: '1h'`, primary secret) and refresh token
(`expiresIn: '7d'`, `JWT_REFRESH_SECRET`).  The `User` schema declares no
`roles` field, so `user.roles` is `undefined` for every stored user. -/
def AuthService.generateTokens (user : UserQueryResult) (now : Nat) : Jwt × Jwt :=
  let payload : JwtPayload :=
    { sub := user.id
      email := user.email
      roles := none
      isActive := user.isActive }
  (jwtSign payload .access 3600 now, jwtSign payload .refresh 604800 now)

/-- `AuthService.updateRefreshToken(userId, refreshToken)`: bcrypt-hash the
refresh token with a fresh salt and store the hash on the user. -/
def AuthService.updateRefreshToken (db : Db) (userId : String)
    (refreshToken : Jwt) (salt : Nat) : Db :=
  UserService.updateRefreshToken db userId (some (bcryptHash refreshToken salt))

/-- `AuthService.login(email, password)`: lookup including the credential
field, uniform `Unauthorized('Invalid credentials')` on missing user or
password mismatch; on success issue tokens and persist the refresh hash.
The inner `none` branch on the projected password is unreachable at this
call site (the lookup passes `includePassword = true`); in the source a
missing hash would make `bcrypt.compare` reject with a library error. -/
def AuthService.login (db : Db) (now salt : Nat) (email password : String) :
    Except HttpError (Db × Jwt × Jwt) :=
  match UserService.findByEmail db email true with
  | none => .error (.unauthorized "Invalid credentials")
  | some user =>
    match user.password with
    | none => .error (.infrastructure "data and hash arguments required")
    | some stored =>
      if bcryptCompare password stored then
        let tokens := AuthService.generateTokens user now
        let db2 := AuthService.updateRefreshToken db user.id tokens.2 salt
        .ok (db2, tokens)
      else
        .error (.unauthorized "Invalid credentials")

/-- The body of the `try` block of `AuthController.refresh`: verify the
refresh token, look the user up by the payload email (default projection),
require a stored non-null refresh hash (`!user || !user.refreshToken`),
compare the presented token against the stored hash, then rotate. -/
def AuthController.refreshTry (db : Db) (now salt : Nat) (refreshToken : Jwt) :
    Except HttpError (Db × Jwt × Jwt) :=
  match jwtVerify refreshToken .refresh now with
  | none => .error (.infrastructure "jwt expired or invalid signature")
  | some payload =>
    match UserService.findByEmail db payload.email with
    | none => .error (.forbidden "Access denied.")
    | some user =>
      match user.refreshToken.join with
      | none => .error (.forbidden "Access denied.")
      | some stored =>
        if bcryptCompare refreshToken stored then
          let tokens := AuthService.generateTokens user now
          let db2 := AuthService.updateRefreshToken db user.id tokens.2 salt
          .ok (db2, tokens)
        else
          .error (.forbidden "Invalid refresh token.")

/-- `AuthController.refresh`: the whole body runs inside `try { ... } catch`
whose bare `catch` swallows every thrown error — the inner
`ForbiddenException`s included — and rethrows the single generic
`ForbiddenException('Token expired or invalid.')`. -/
def AuthController.refresh (db : Db) (now salt : Nat) (refreshToken : Jwt) :
    Except HttpError (Db × Jwt × Jwt) :=
  match AuthController.refreshTry db now salt refreshToken with
  | .ok r => .ok r
  | .error _ => .error (.forbidden "Token expired or invalid.")

/-- `AuthController.logout`: clears the stored refresh hash and returns the
acknowledgement message. -/
def AuthController.logout (db : Db) (userId : String) : Db × String :=
  (UserService.removeRefreshToken db userId, "Logged out successfully")

/-- The authenticated identity attached to a request by the JWT strategy. -/
structure Identity where
  userId : String
  email : String
  roles : Option (List String)
  isActive : Bool
deriving DecidableEq, Repr

/-- `JwtStrategy.validate(payload)`: field renaming only, no checks. -/
def JwtStrategy.validate (p : JwtPayload) : Identity :=
  { userId := p.sub, email := p.email, roles := p.roles, isActive := p.isActive }

/-- Message of the `ForbiddenException` thrown by `RolesGuard`. -/
def rolesGuardMessage : String := "You do not have permission to access this resource"

/-- `user && user.roles?.includes('ADMIN')`: optional chaining makes an
absent `roles` array behave as an empty one. -/
def RolesGuard.hasAdmin (user : Option Identity) : Bool :=
  match user with
  | some u => (u.roles.getD []).contains "ADMIN"
  | none => false

/-- `user.roles?.some(r => requiredRoles.includes(r))`, `false` when there
is no user or no roles array. -/
def RolesGuard.matchesRequired (user : Option Identity) (required : List String) : Bool :=
  match user with
  | some u => (u.roles.getD []).any (fun r => required.contains r)
  | none => false

/-- `RolesGuard.canActivate`: `requiredRoles = none` models metadata absent
(`reflector.getAllAndOverride` returned `undefined`, the only falsy case of
`if (!requiredRoles) return true` — an empty array is truthy in JS).
Then the ADMIN bypass, then the role-intersection check; otherwise the
guard throws `ForbiddenException`. -/
def RolesGuard.canActivate (requiredRoles : Option (List String)) (user : Option Identity) :
    Except HttpError Bool :=
  match requiredRoles with
  | none => .ok true
  | some required =>
    if RolesGuard.hasAdmin user then .ok true
    else if RolesGuard.matchesRequired user required then .ok true
    else .error (.forbidden rolesGuardMessage)

/-- Tenant-scoped roles (`TenantRole.enum.ts`). -/
inductive TenantRole where
  | OWNER
  | ADMIN
  | EDITOR
  | VIEWER
deriving DecidableEq, Repr

/-- A Mongo `Types.ObjectId` as hydrated on a document: an *object*
wrapping the 24-hex-char id, distinct at runtime from the plain string
produced by its `toString()`/`toJSON()` (which is what ends up in a JWT
`sub` claim and in request identities). -/
structure ObjectId where
  hex : String
deriving DecidableEq, Repr

/-- JS strict equality (`===`) between a hydrated `Types.ObjectId` and a
string: `===` performs no coercion and operands of different runtime
types are never strictly equal, so the comparison is constantly `false`
whatever the ids are.  (The tenant service converts with `.toString()`
before comparing; `TenantRolesGuard` does not.) -/
def objectIdStrictEqString (_oid : ObjectId) (_s : String) : Bool := false

/-- An entry of `Tenant.members` (`tenantMember.schema.ts`): `userId` is
declared `@Prop({ type: Types.ObjectId, ref: 'User' })`, so on a hydrated
tenant document it is an `ObjectId` object, not a string; `role` is
schema-constrained to the four enum values, so it is never a falsy
string. -/
structure TenantMember where
  userId : ObjectId
  role : TenantRole
deriving DecidableEq, Repr

/-- The persisted Tenant document (`tenant.schema.ts`). -/
structure TenantDoc where
  id : String
  name : String
  createdBy : String
  updatedBy : String
  members : List TenantMember
deriving DecidableEq, Repr

/-- `TenantService.getTenant(id)`: `tenantModel.findById(id)`. -/
def TenantService.getTenant (tenants : List TenantDoc) (id : String) : Option TenantDoc :=
  tenants.find? (fun t => t.id == id)

/-- JS truthiness of an optional string: `undefined` and `''` are falsy. -/
def jsTruthy (s : Option String) : Option String :=
  match s with
  | some str => if str == "" then none else some str
  | none => none

/-- `request.params.id || request.headers['x-tenant-id']` followed by the
`if (!tenantId) return false` falsiness check. -/
def resolveTenantId (paramsId headerTenantId : Option String) : Option String :=
  match jsTruthy paramsId with
  | some s => some s
  | none => jsTruthy headerTenantId

/-- `TenantRolesGuard.canActivate`: allow when the declared tenant-role
set is absent or empty; otherwise require an identity, a resolvable
tenant id and an existing tenant, then look up the membership row with
`tenant.members.find((member) => member.userId === user.userId)` and
require its role to be in the declared set.  The `find` predicate is the
strict equality of an `ObjectId` subdocument field against the JWT-derived
string, a comparison that can never succeed.  Returning `false` makes the
framework reject with Forbidden. -/
def TenantRolesGuard.canActivate (requiredRoles : Option (List TenantRole))
    (user : Option Identity) (paramsId headerTenantId : Option String)
    (tenants : List TenantDoc) : Bool :=
  match requiredRoles with
  | none => true
  | some required =>
    if required.isEmpty then true
    else
      match user with
      | none => false
      | some u =>
        match resolveTenantId paramsId headerTenantId with
        | none => false
        | some tenantId =>
          match TenantService.getTenant tenants tenantId with
          | none => false
          | some tenant =>
            match tenant.members.find? (fun m => objectIdStrictEqString m.userId u.userId) with
            | none => false
            | some member => required.contains member.role

deriving instance DecidableEq for Except

/-! ### Helper lemmas -/

theorem jwtVerify_some {t : Jwt} {s : JwtSecret} {now : Nat} {p : JwtPayload}
    (h : jwtVerify t s now = some p) : p = t.payload ∧ t.secret = s ∧ now < t.exp := by
  unfold jwtVerify at h
  by_cases hc : t.secret = s ∧ now < t.exp
  · rw [if_pos hc] at h
    exact ⟨(Option.some.inj h).symm, hc.1, hc.2⟩
  · rw [if_neg hc] at h
    cases h

theorem find?_updateRefreshToken (db : Db) (uid : String) (h : Option (Hashed Jwt))
    (e : String) :
    (UserService.updateRefreshToken db uid h).users.find? (fun u => u.email == e) =
      (db.users.find? (fun u => u.email == e)).map
        (fun u => if u.id == uid then { u with refreshToken := h } else u) := by
  unfold UserService.updateRefreshToken
  rw [List.find?_map]
  have hp : ((fun u => u.email == e) ∘
      (fun u => if u.id == uid then { u with refreshToken := h } else u)) =
      (fun (u : UserDoc) => u.email == e) := by
    funext u
    by_cases hc : (u.id == uid) = true <;> simp [Function.comp, hc]
  rw [hp]

theorem removeRefreshToken_eq_update (db : Db) (uid : String) :
    UserService.removeRefreshToken db uid = UserService.updateRefreshToken db uid none := rfl

theorem refreshTry_ok_inv {db : Db} {now salt : Nat} {t : Jwt} {db' : Db} {a r : Jwt}
    (h : AuthController.refreshTry db now salt t = .ok (db', a, r)) :
    ∃ d stored,
      jwtVerify t .refresh now = some t.payload ∧
      db.users.find? (fun u => u.email == t.payload.email) = some d ∧
      d.refreshToken = some stored ∧
      bcryptCompare t stored = true ∧
      a = (AuthService.generateTokens (projectUser false d) now).1 ∧
      r = (AuthService.generateTokens (projectUser false d) now).2 ∧
      db' = AuthService.updateRefreshToken db d.id r salt := by
  unfold AuthController.refreshTry at h
  split at h
  · cases h
  · rename_i payload hv
    have hp : payload = t.payload := (jwtVerify_some hv).1
    subst hp
    unfold UserService.findByEmail at h
    split at h
    · cases h
    · rename_i user hmap
      obtain ⟨d, hf, hud⟩ := Option.map_eq_some'.mp hmap
      subst hud
      split at h
      · cases h
      · rename_i stored hstored
        have hrt : d.refreshToken = some stored := by
          simpa [projectUser, Option.join] using hstored
        split at h
        · rename_i hcmp
          simp only [Except.ok.injEq, Prod.mk.injEq] at h
          have ha : a = (AuthService.generateTokens (projectUser false d) now).1 :=
            (congrArg Prod.fst h.2).symm
          have hr : r = (AuthService.generateTokens (projectUser false d) now).2 :=
            (congrArg Prod.snd h.2).symm
          refine ⟨d, stored, hv, hf, hrt, hcmp, ha, hr, ?_⟩
          rw [hr]
          exact h.1.symm
        · cases h

theorem login_ok_inv {db : Db} {now salt : Nat} {e pw : String} {db1 : Db} {a r : Jwt}
    (h : AuthService.login db now salt e pw = .ok (db1, a, r)) :
    ∃ d,
      db.users.find? (fun u => u.email == e) = some d ∧
      bcryptCompare pw d.password = true ∧
      a = (AuthService.generateTokens (projectUser true d) now).1 ∧
      r = (AuthService.generateTokens (projectUser true d) now).2 ∧
      db1 = AuthService.updateRefreshToken db d.id r salt := by
  unfold AuthService.login UserService.findByEmail at h
  split at h
  · cases h
  · rename_i user hmap
    obtain ⟨d, hf, hud⟩ := Option.map_eq_some'.mp hmap
    subst hud
    split at h
    · rename_i hnone
      simp [projectUser] at hnone
    · rename_i stored hstored
      have hpw : stored = d.password := by
        have := hstored
        simp [projectUser] at this
        exact this.symm
      subst hpw
      split at h
      · rename_i hcmp
        simp only [Except.ok.injEq, Prod.mk.injEq] at h
        have ha : a = (AuthService.generateTokens (projectUser true d) now).1 :=
          (congrArg Prod.fst h.2).symm
        have hr : r = (AuthService.generateTokens (projectUser true d) now).2 :=
          (congrArg Prod.snd h.2).symm
        refine ⟨d, hf, hcmp, ha, hr, ?_⟩
        rw [hr]
        exact h.1.symm
      · cases h

/-! ### Claim theorems -/

/-- C1: every failure of the refresh operation — token verification,
user lookup, missing stored hash, hash mismatch, or any other error raised
inside the `try` block — surfaces as the single uniform
`Forbidden('Token expired or invalid.')`, never distinguishing the failing
sub-step. -/
theorem refresh_failure_uniform_forbidden (db : Db) (now salt : Nat) (t : Jwt) :
    (∀ e, AuthController.refreshTry db now salt t = .error e →
      AuthController.refresh db now salt t =
        .error (.forbidden "Token expired or invalid.")) ∧
    (∀ e, AuthController.refresh db now salt t = .error e →
      e = .forbidden "Token expired or invalid.") := by
  constructor
  · intro e he
    unfold AuthController.refresh
    rw [he]
  · intro e he
    unfold AuthController.refresh at he
    cases htry : AuthController.refreshTry db now salt t with
    | ok v => rw [htry] at he; cases he
    | error e2 =>
      rw [htry] at he
      exact (Except.error.inj he).symm

/-- C1 witness: an expired refresh token against an empty store is
rejected with the uniform Forbidden error. -/
theorem refresh_failure_uniform_forbidden_witness :
    AuthController.refresh { users := [], nextId := 0 } 20 0
      { payload := { sub := "1", email := "a@x.com", roles := none, isActive := true },
        secret := .refresh, iat := 0, exp := 10 } =
      .error (.forbidden "Token expired or invalid.") :=
  (refresh_failure_uniform_forbidden { users := [], nextId := 0 } 20 0
      { payload := { sub := "1", email := "a@x.com", roles := none, isActive := true },
        secret := .refresh, iat := 0, exp := 10 }).1
    (.infrastructure "jwt expired or invalid signature") (by decide)

/-- C3: `login` fails with the same `Unauthorized` kind and the identical
message text both when no user exists with the given email and when the
user exists but the password does not verify against the stored hash. -/
theorem login_uniform_invalid_credentials (db : Db) (now salt : Nat) (email password : String) :
    (UserService.findByEmail db email true = none →
      AuthService.login db now salt email password =
        .error (.unauthorized "Invalid credentials")) ∧
    (∀ u stored, UserService.findByEmail db email true = some u →
      u.password = some stored → bcryptCompare password stored = false →
      AuthService.login db now salt email password =
        .error (.unauthorized "Invalid credentials")) := by
  constructor
  · intro h
    unfold AuthService.login
    rw [h]
  · intro u stored hu hp hcmp
    unfold AuthService.login
    rw [hu]
    simp [hp, hcmp]

/-- C3 witness: against a store holding one user `a@x.com` with password
`pw`, both a missing email and a wrong password produce the same
`Unauthorized('Invalid credentials')`. -/
theorem login_uniform_invalid_credentials_witness :
    AuthService.login
        { users := [{ id := "1", email := "a@x.com", password := ⟨"pw", 0⟩,
                      isActive := true, refreshToken := none, tenants := [] }], nextId := 2 }
        0 0 "missing@x.com" "pw" = .error (.unauthorized "Invalid credentials") ∧
    AuthService.login
        { users := [{ id := "1", email := "a@x.com", password := ⟨"pw", 0⟩,
                      isActive := true, refreshToken := none, tenants := [] }], nextId := 2 }
        0 0 "a@x.com" "wrongpw" = .error (.unauthorized "Invalid credentials") :=
  ⟨(login_uniform_invalid_credentials
      { users := [{ id := "1", email := "a@x.com", password := ⟨"pw", 0⟩,
                    isActive := true, refreshToken := none, tenants := [] }], nextId := 2 }
      0 0 "missing@x.com" "pw").1 (by decide),
   (login_uniform_invalid_credentials
      { users := [{ id := "1", email := "a@x.com", password := ⟨"pw", 0⟩,
                    isActive := true, refreshToken := none, tenants := [] }], nextId := 2 }
      0 0 "a@x.com" "wrongpw").2
     (projectUser true { id := "1", email := "a@x.com", password := ⟨"pw", 0⟩,
                         isActive := true, refreshToken := none, tenants := [] })
     ⟨"pw", 0⟩ (by decide) (by decide) (by decide)⟩

theorem hasAdmin_eq_true_iff (u : Identity) :
    RolesGuard.hasAdmin (some u) = true ↔ "ADMIN" ∈ u.roles.getD [] := by
  simp [RolesGuard.hasAdmin, List.contains, List.elem_iff]

theorem matchesRequired_eq_true_iff (u : Identity) (required : List String) :
    RolesGuard.matchesRequired (some u) required = true ↔
      ∃ r ∈ u.roles.getD [], r ∈ required := by
  simp [RolesGuard.matchesRequired, List.any_eq_true, List.contains, List.elem_iff]

/-- C4: on a route with a declared required-role set, an identity carrying
the ADMIN sentinel is allowed unconditionally; any other identity is
allowed exactly when its roles intersect the required set, and is rejected
with Forbidden otherwise; a request with no identity at all is rejected
with Forbidden. -/
theorem roles_guard_admin_bypass_and_intersection :
    (∀ (rs : List String) (u : Identity), "ADMIN" ∈ u.roles.getD [] →
      RolesGuard.canActivate (some rs) (some u) = .ok true) ∧
    (∀ (rs : List String) (u : Identity),
      RolesGuard.canActivate (some rs) (some u) = .ok true ↔
        ("ADMIN" ∈ u.roles.getD [] ∨ ∃ r ∈ u.roles.getD [], r ∈ rs)) ∧
    (∀ (rs : List String) (u : Identity), "ADMIN" ∉ u.roles.getD [] →
      (∀ r ∈ u.roles.getD [], r ∉ rs) →
      RolesGuard.canActivate (some rs) (some u) = .error (.forbidden rolesGuardMessage)) ∧
    (∀ rs : List String,
      RolesGuard.canActivate (some rs) none = .error (.forbidden rolesGuardMessage)) := by
  have hcore : ∀ (rs : List String) (u : Identity),
      RolesGuard.canActivate (some rs) (some u) =
        if RolesGuard.hasAdmin (some u) then .ok true
        else if RolesGuard.matchesRequired (some u) rs then .ok true
        else .error (.forbidden rolesGuardMessage) := by
    intro rs u
    rfl
  refine ⟨?_, ?_, ?_, ?_⟩
  · intro rs u h
    rw [hcore, if_pos ((hasAdmin_eq_true_iff u).mpr h)]
  · intro rs u
    rw [hcore]
    by_cases ha : RolesGuard.hasAdmin (some u) = true
    · simp [ha, (hasAdmin_eq_true_iff u).mp ha]
    · have ha' : "ADMIN" ∉ u.roles.getD [] := fun hmem =>
        ha ((hasAdmin_eq_true_iff u).mpr hmem)
      by_cases hm : RolesGuard.matchesRequired (some u) rs = true
      · simp [ha, hm, (matchesRequired_eq_true_iff u rs).mp hm]
      · have hm' : ¬ ∃ r ∈ u.roles.getD [], r ∈ rs := fun hex =>
          hm ((matchesRequired_eq_true_iff u rs).mpr hex)
        simp [ha, hm, ha', hm']
  · intro rs u ha hm
    have ha' : RolesGuard.hasAdmin (some u) = false := by
      cases hb : RolesGuard.hasAdmin (some u) with
      | false => rfl
      | true => exact absurd ((hasAdmin_eq_true_iff u).mp hb) ha
    have hm' : RolesGuard.matchesRequired (some u) rs = false := by
      cases hb : RolesGuard.matchesRequired (some u) rs with
      | false => rfl
      | true =>
        obtain ⟨r, hr, hrs⟩ := (matchesRequired_eq_true_iff u rs).mp hb
        exact absurd hrs (hm r hr)
    rw [hcore, ha', hm']
    simp
  · intro rs
    rfl

/-- C4 witness: concrete checks of all four conjuncts — ADMIN bypass on a
route requiring MANAGER, the intersection criterion for a USER identity,
rejection of a USER identity on an ADMIN-only route, and rejection of an
unauthenticated request. -/
theorem roles_guard_admin_bypass_and_intersection_witness :
    RolesGuard.canActivate (some ["MANAGER"])
      (some { userId := "1", email := "a@x.com", roles := some ["ADMIN"], isActive := true }) =
        .ok true ∧
    (RolesGuard.canActivate (some ["USER"])
      (some { userId := "1", email := "a@x.com", roles := some ["USER"], isActive := true }) =
        .ok true ↔
      ("ADMIN" ∈ (some ["USER"] : Option (List String)).getD [] ∨
        ∃ r ∈ (some ["USER"] : Option (List String)).getD [], r ∈ ["USER"])) ∧
    RolesGuard.canActivate (some ["ADMIN"])
      (some { userId := "1", email := "a@x.com", roles := some ["USER"], isActive := true }) =
        .error (.forbidden rolesGuardMessage) ∧
    RolesGuard.canActivate (some ["ADMIN"]) none = .error (.forbidden rolesGuardMessage) :=
  ⟨roles_guard_admin_bypass_and_intersection.1 ["MANAGER"]
      { userId := "1", email := "a@x.com", roles := some ["ADMIN"], isActive := true }
      (by decide),
   roles_guard_admin_bypass_and_intersection.2.1 ["USER"]
      { userId := "1", email := "a@x.com", roles := some ["USER"], isActive := true },
   roles_guard_admin_bypass_and_intersection.2.2.1 ["ADMIN"]
      { userId := "1", email := "a@x.com", roles := some ["USER"], isActive := true }
      (by decide) (by decide),
   roles_guard_admin_bypass_and_intersection.2.2.2 ["ADMIN"]⟩

/-- C5 counterexample: the claim says an *empty* declared required-role set
always allows the request, but the guard only treats *absent* metadata that
way (`if (!requiredRoles) return true` — an empty array is truthy in JS):
with an empty declared set and no authenticated identity the guard throws
Forbidden instead of allowing. -/
theorem roles_guard_empty_set_rejects_cex :
    RolesGuard.canActivate (some []) none ≠ .ok true ∧
    RolesGuard.canActivate (some []) none = .error (.forbidden rolesGuardMessage) := by
  constructor
  · intro h
    cases h
  · rfl

/-- C5 (amended): if the route declares no required-role set at all
(metadata absent), the guard allows every request; an empty *declared* set
is not treated as absent — it allows exactly the identities carrying the
ADMIN sentinel and rejects every other request with Forbidden. -/
theorem roles_guard_absent_allows_empty_restricts :
    (∀ user : Option Identity, RolesGuard.canActivate none user = .ok true) ∧
    (∀ user : Option Identity, RolesGuard.hasAdmin user = true →
      RolesGuard.canActivate (some []) user = .ok true) ∧
    (∀ user : Option Identity, RolesGuard.hasAdmin user = false →
      RolesGuard.canActivate (some []) user = .error (.forbidden rolesGuardMessage)) := by
  refine ⟨fun user => rfl, ?_, ?_⟩
  · intro user h
    cases user with
    | none => cases h
    | some u =>
      show (if RolesGuard.hasAdmin (some u) then (.ok true : Except HttpError Bool)
        else if RolesGuard.matchesRequired (some u) [] then .ok true
        else .error (.forbidden rolesGuardMessage)) = .ok true
      rw [if_pos h]
  · intro user h
    cases user with
    | none => rfl
    | some u =>
      have hm : RolesGuard.matchesRequired (some u) [] = false := by
        cases hb : RolesGuard.matchesRequired (some u) [] with
        | false => rfl
        | true =>
          obtain ⟨r, _, hrs⟩ := (matchesRequired_eq_true_iff u []).mp hb
          cases hrs
      show (if RolesGuard.hasAdmin (some u) then (.ok true : Except HttpError Bool)
        else if RolesGuard.matchesRequired (some u) [] then .ok true
        else .error (.forbidden rolesGuardMessage)) = .error (.forbidden rolesGuardMessage)
      rw [h, hm]
      simp

/-- C5 witness: metadata absent allows an unauthenticated request; an empty
declared set allows an ADMIN identity and rejects a USER identity. -/
theorem roles_guard_absent_allows_empty_restricts_witness :
    RolesGuard.canActivate none none = .ok true ∧
    RolesGuard.canActivate (some [])
      (some { userId := "1", email := "a@x.com", roles := some ["ADMIN"], isActive := true }) =
        .ok true ∧
    RolesGuard.canActivate (some [])
      (some { userId := "1", email := "a@x.com", roles := some ["USER"], isActive := true }) =
        .error (.forbidden rolesGuardMessage) :=
  ⟨roles_guard_absent_allows_empty_restricts.1 none,
   roles_guard_absent_allows_empty_restricts.2.1
      (some { userId := "1", email := "a@x.com", roles := some ["ADMIN"], isActive := true })
      (by decide),
   roles_guard_absent_allows_empty_restricts.2.2
      (some { userId := "1", email := "a@x.com", roles := some ["USER"], isActive := true })
      (by decide)⟩

/-- C9: the `User` schema has no roles field, so the payload built by
`generateTokens` always carries an absent `roles` claim; the JWT strategy
copies that claim into the request identity unchanged; and the role guard
rejects any identity without a roles array on every route that declares a
required-role set — the ADMIN bypass included, since it tests membership
of "ADMIN" in the identity's roles. -/
theorem issued_tokens_carry_no_roles :
    (∀ (user : UserQueryResult) (now : Nat),
      (AuthService.generateTokens user now).1.payload.roles = none ∧
      (AuthService.generateTokens user now).2.payload.roles = none) ∧
    (∀ p : JwtPayload, (JwtStrategy.validate p).roles = p.roles) ∧
    (∀ (rs : List String) (ident : Identity), ident.roles = none →
      RolesGuard.canActivate (some rs) (some ident) =
        .error (.forbidden rolesGuardMessage)) := by
  refine ⟨fun user now => ⟨rfl, rfl⟩, fun p => rfl, ?_⟩
  intro rs ident h
  show (if RolesGuard.hasAdmin (some ident) then (.ok true : Except HttpError Bool)
    else if RolesGuard.matchesRequired (some ident) rs then .ok true
    else .error (.forbidden rolesGuardMessage)) = .error (.forbidden rolesGuardMessage)
  have ha : RolesGuard.hasAdmin (some ident) = false := by
    simp [RolesGuard.hasAdmin, h]
  have hm : RolesGuard.matchesRequired (some ident) rs = false := by
    simp [RolesGuard.matchesRequired, h]
  rw [ha, hm]
  simp

/-- C9 witness: a token pair issued at login for a stored user carries no
roles claim, the strategy propagates the absent claim, and the resulting
identity is rejected even on a route requiring only ADMIN. -/
theorem issued_tokens_carry_no_roles_witness :
    ((AuthService.generateTokens
        (projectUser false { id := "1", email := "a@x.com", password := ⟨"pw", 0⟩,
                             isActive := true, refreshToken := none, tenants := [] })
        0).2.payload.roles = none) ∧
    (JwtStrategy.validate { sub := "1", email := "a@x.com", roles := none,
                            isActive := true }).roles = none ∧
    RolesGuard.canActivate (some ["ADMIN"])
      (some { userId := "1", email := "a@x.com", roles := none, isActive := true }) =
        .error (.forbidden rolesGuardMessage) :=
  ⟨(issued_tokens_carry_no_roles.1
      (projectUser false { id := "1", email := "a@x.com", password := ⟨"pw", 0⟩,
                           isActive := true, refreshToken := none, tenants := [] }) 0).2,
   issued_tokens_carry_no_roles.2.1
      { sub := "1", email := "a@x.com", roles := none, isActive := true },
   issued_tokens_carry_no_roles.2.2 ["ADMIN"]
      { userId := "1", email := "a@x.com", roles := none, isActive := true } rfl⟩

/-- C6: the guard fetches the tenant and runs
`tenant.members.find((member) => member.userId === user.userId)`, strictly
comparing the hydrated `Types.ObjectId` field against the JWT string
identity — a comparison that is always false — so on every route declaring
a non-empty required tenant-role set the guard denies every request.  In
particular, at the concrete failing input an OWNER member of the tenant
(same id, stored as an ObjectId) requesting an OWNER-gated route is
denied, although the claim says such a request is allowed. -/
theorem tenant_guard_objectid_compare_never_allows :
    (∀ (required : List TenantRole) (user : Option Identity) (p h : Option String)
       (tenants : List TenantDoc), required ≠ [] →
      TenantRolesGuard.canActivate (some required) user p h tenants = false) ∧
    (TenantRolesGuard.canActivate (some [TenantRole.OWNER, TenantRole.ADMIN])
        (some { userId := "u1", email := "a@x.com", roles := none, isActive := true })
        (some "t1") none
        [{ id := "t1", name := "T", createdBy := "u1", updatedBy := "u1",
           members := [{ userId := { hex := "u1" }, role := TenantRole.OWNER }] }] = false ∧
      ∃ m ∈ ([{ userId := { hex := "u1" }, role := TenantRole.OWNER }] : List TenantMember),
        m.userId.hex = "u1" ∧ m.role ∈ [TenantRole.OWNER, TenantRole.ADMIN]) := by
  constructor
  · intro required user p h tenants hne
    have hemp : required.isEmpty = false := by
      cases required with
      | nil => exact absurd rfl hne
      | cons a l => rfl
    cases user with
    | none => simp [TenantRolesGuard.canActivate, hemp]
    | some u =>
      cases hr : resolveTenantId p h with
      | none => simp [TenantRolesGuard.canActivate, hemp, hr]
      | some tid =>
        cases ht : TenantService.getTenant tenants tid with
        | none => simp [TenantRolesGuard.canActivate, hemp, hr, ht]
        | some tenant =>
          have hfind : tenant.members.find?
              (fun m => objectIdStrictEqString m.userId u.userId) = none := by
            apply List.find?_eq_none.mpr
            intro x hx
            simp [objectIdStrictEqString]
          simp [TenantRolesGuard.canActivate, hemp, hr, ht, hfind]
  · decide

/-- C6 witness: the always-deny theorem applied concretely — an
unauthenticated request on a VIEWER-gated route is denied. -/
theorem tenant_guard_objectid_compare_never_allows_witness :
    TenantRolesGuard.canActivate (some [TenantRole.VIEWER]) none (some "t9") none [] = false :=
  tenant_guard_objectid_compare_never_allows.1 [TenantRole.VIEWER] none
    (some "t9") none [] (by decide)

/-- C7 counterexample: the default (no include-credential flag) lookup
excludes only the password; the `refreshToken` prop has no `select: false`
and no query excludes it, so the returned record carries the stored
refresh-token hash, contradicting "contains neither the password field nor
the refreshToken field". -/
theorem user_lookup_refresh_token_included_cex :
    UserService.findByEmail
      { users := [{ id := "1", email := "a@x.com", password := ⟨"pw", 0⟩, isActive := true,
                    refreshToken := some
                      ⟨{ payload := { sub := "1", email := "a@x.com", roles := none, isActive := true },
                         secret := .refresh, iat := 0, exp := 100 }, 5⟩,
                    tenants := [] }], nextId := 2 } "a@x.com" =
      some { id := "1", email := "a@x.com", password := none, isActive := true,
             refreshToken := some (some
               ⟨{ payload := { sub := "1", email := "a@x.com", roles := none, isActive := true },
                  secret := .refresh, iat := 0, exp := 100 }, 5⟩),
             tenants := [] } ∧
    (some (some
        (⟨{ payload := { sub := "1", email := "a@x.com", roles := none, isActive := true },
            secret := .refresh, iat := 0, exp := 100 }, 5⟩ : Hashed Jwt)) :
      Option (Option (Hashed Jwt))) ≠ none := by decide

/-- C7 (amended): every lookup without the include-credential flag
(default find-by-email, find-by-id, list-all-users) returns a record with
the password field excluded, but the refreshToken field is always
included (the refresh flow depends on reading it from a default lookup);
only the explicit flag used by the login call site reveals the password. -/
theorem default_lookups_hide_password_only :
    (∀ (db : Db) (e : String) (r : UserQueryResult),
      UserService.findByEmail db e = some r →
        r.password = none ∧ ∃ v, r.refreshToken = some v) ∧
    (∀ (db : Db) (i : String) (r : UserQueryResult),
      UserService.findById db i = some r →
        r.password = none ∧ ∃ v, r.refreshToken = some v) ∧
    (∀ (db : Db) (r : UserQueryResult), r ∈ UserService.getAllUsers db →
        r.password = none ∧ ∃ v, r.refreshToken = some v) ∧
    (∀ (db : Db) (e : String) (r : UserQueryResult),
      UserService.findByEmail db e true = some r → ∃ hpw, r.password = some hpw) := by
  refine ⟨?_, ?_, ?_, ?_⟩
  · intro db e r h
    obtain ⟨d, _, hud⟩ := Option.map_eq_some'.mp h
    subst hud
    exact ⟨rfl, d.refreshToken, rfl⟩
  · intro db i r h
    obtain ⟨d, _, hud⟩ := Option.map_eq_some'.mp h
    subst hud
    exact ⟨rfl, d.refreshToken, rfl⟩
  · intro db r h
    obtain ⟨d, _, hud⟩ := List.mem_map.mp h
    subst hud
    exact ⟨rfl, d.refreshToken, rfl⟩
  · intro db e r h
    obtain ⟨d, _, hud⟩ := Option.map_eq_some'.mp h
    subst hud
    exact ⟨d.password, rfl⟩

/-- C7 witness: concrete checks of the amended statement on a one-user
store — default email lookup hides the password and returns the stored
refresh hash; the explicit flag reveals the password. -/
theorem default_lookups_hide_password_only_witness :
    ((projectUser false { id := "1", email := "a@x.com", password := ⟨"pw", 0⟩,
                          isActive := true, refreshToken := none, tenants := [] }).password = none ∧
      ∃ v, (projectUser false { id := "1", email := "a@x.com", password := ⟨"pw", 0⟩,
                                isActive := true, refreshToken := none,
                                tenants := [] }).refreshToken = some v) ∧
    (∃ hpw, (projectUser true { id := "1", email := "a@x.com", password := ⟨"pw", 0⟩,
                                isActive := true, refreshToken := none,
                                tenants := [] }).password = some hpw) :=
  ⟨default_lookups_hide_password_only.1
      { users := [{ id := "1", email := "a@x.com", password := ⟨"pw", 0⟩,
                    isActive := true, refreshToken := none, tenants := [] }], nextId := 2 }
      "a@x.com"
      (projectUser false { id := "1", email := "a@x.com", password := ⟨"pw", 0⟩,
                           isActive := true, refreshToken := none, tenants := [] })
      (by decide),
   default_lookups_hide_password_only.2.2.2
      { users := [{ id := "1", email := "a@x.com", password := ⟨"pw", 0⟩,
                    isActive := true, refreshToken := none, tenants := [] }], nextId := 2 }
      "a@x.com"
      (projectUser true { id := "1", email := "a@x.com", password := ⟨"pw", 0⟩,
                          isActive := true, refreshToken := none, tenants := [] })
      (by decide)⟩

/-- C8: `register` fails with Conflict when a user with the email already
exists, and the error path has no side effect — no state is produced, so
no second record is created and the existing record is unchanged;
otherwise a new record with the hashed credential is appended.  The
two-call scenario: a second registration of the same email fails with
Conflict and the store still holds exactly one more record than before the
first call. -/
theorem register_conflict_no_side_effect :
    (∀ (db : Db) (salt : Nat) (e pw : String) (u : UserQueryResult),
      UserService.findByEmail db e = some u →
      AuthService.register db salt e pw =
        .error (.conflict ("User with email " ++ e ++ " already exists"))) ∧
    (∀ (db : Db) (salt : Nat) (e pw : String),
      UserService.findByEmail db e = none →
      ∃ db2 nu, AuthService.register db salt e pw = .ok (db2, nu) ∧
        db2.users = db.users ++ [nu] ∧ nu.password = bcryptHash pw salt ∧ nu.email = e) ∧
    (∀ (db : Db) (salt1 salt2 : Nat) (e pw1 pw2 : String) (db1 : Db) (nu : UserDoc),
      AuthService.register db salt1 e pw1 = .ok (db1, nu) →
      AuthService.register db1 salt2 e pw2 =
        .error (.conflict ("User with email " ++ e ++ " already exists")) ∧
      db1.users.length = db.users.length + 1) := by
  have hconf : ∀ (db : Db) (salt : Nat) (e pw : String) (u : UserQueryResult),
      UserService.findByEmail db e = some u →
      AuthService.register db salt e pw =
        .error (.conflict ("User with email " ++ e ++ " already exists")) := by
    intro db salt e pw u h
    unfold AuthService.register
    rw [h]
  refine ⟨hconf, ?_, ?_⟩
  · intro db salt e pw h
    refine ⟨(UserService.create db e (bcryptHash pw salt)).1,
      (UserService.create db e (bcryptHash pw salt)).2, ?_, rfl, rfl, rfl⟩
    unfold AuthService.register
    rw [h]
  · intro db salt1 salt2 e pw1 pw2 db1 nu h
    unfold AuthService.register at h
    split at h
    · cases h
    · rename_i hnone
      simp only [Except.ok.injEq] at h
      have hdb1 : db1 = (UserService.create db e (bcryptHash pw1 salt1)).1 :=
        (congrArg Prod.fst h).symm
      have hnu : nu = (UserService.create db e (bcryptHash pw1 salt1)).2 :=
        (congrArg Prod.snd h).symm
      have husers : db1.users = db.users ++ [nu] := by
        rw [hdb1, hnu]
        rfl
      have hemail : (nu.email == e) = true := by
        rw [hnu]
        exact beq_self_eq_true e
      have hfindnil : db.users.find? (fun u => u.email == e) = none :=
        Option.map_eq_none'.mp hnone
      have hfind1 : db1.users.find? (fun u => u.email == e) = some nu := by
        rw [husers, List.find?_append, hfindnil, Option.none_or]
        exact List.find?_cons_of_pos _ hemail
      constructor
      · apply hconf db1 salt2 e pw2 (projectUser false nu)
        unfold UserService.findByEmail
        rw [hfind1]
        rfl
      · rw [husers]
        simp

/-- C8 witness: registering `a@x.com` into an empty store succeeds and
appends the hashed credential; registering the same email again fails with
Conflict while the store still holds exactly one record. -/
theorem register_conflict_no_side_effect_witness :
    (∃ db2 nu, AuthService.register { users := [], nextId := 0 } 4 "a@x.com" "pw" =
        .ok (db2, nu) ∧
      db2.users = ([] : List UserDoc) ++ [nu] ∧
      nu.password = bcryptHash "pw" 4 ∧ nu.email = "a@x.com") ∧
    (AuthService.register
        { users := [{ id := "0", email := "a@x.com", password := ⟨"pw", 4⟩,
                      isActive := true, refreshToken := none, tenants := [] }], nextId := 1 }
        6 "a@x.com" "pw2" =
      .error (.conflict ("User with email " ++ "a@x.com" ++ " already exists")) ∧
      ({ users := [{ id := "0", email := "a@x.com", password := ⟨"pw", 4⟩,
                     isActive := true, refreshToken := none, tenants := [] }],
         nextId := 1 } : Db).users.length =
        ({ users := [], nextId := 0 } : Db).users.length + 1) :=
  ⟨register_conflict_no_side_effect.2.1 { users := [], nextId := 0 } 4 "a@x.com" "pw"
      (by decide),
   register_conflict_no_side_effect.2.2 { users := [], nextId := 0 } 4 6
      "a@x.com" "pw" "pw2"
      { users := [{ id := "0", email := "a@x.com", password := ⟨"pw", 4⟩,
                    isActive := true, refreshToken := none, tenants := [] }], nextId := 1 }
      { id := "0", email := "a@x.com", password := ⟨"pw", 4⟩,
        isActive := true, refreshToken := none, tenants := [] }
      (by decide)⟩

/-- C2: the refresh-token store holds at most one hash per user —
`updateRefreshToken` overwrites the single `refreshToken` field without
appending, and `removeRefreshToken` nulls it; consequently, after a
successful refresh rotates the session, presenting the superseded (old,
distinct) refresh token again fails with the uniform Forbidden error even
if unexpired, and after logout clears the hash, refresh with the
last-issued token fails with the uniform Forbidden error as well. -/
theorem refresh_hash_rotation_invalidates_old :
    (∀ (db : Db) (uid : String) (h : Option (Hashed Jwt)),
      (UserService.updateRefreshToken db uid h).users.length = db.users.length ∧
      (∀ d ∈ (UserService.updateRefreshToken db uid h).users,
        d.id = uid → d.refreshToken = h) ∧
      (∀ d ∈ (UserService.removeRefreshToken db uid).users,
        d.id = uid → d.refreshToken = none)) ∧
    (∀ (db : Db) (now1 salt1 : Nat) (t : Jwt) (db' : Db) (a r : Jwt) (now2 salt2 : Nat),
      AuthController.refresh db now1 salt1 t = .ok (db', a, r) → t ≠ r →
      AuthController.refresh db' now2 salt2 t =
        .error (.forbidden "Token expired or invalid.")) ∧
    (∀ (db : Db) (now1 salt1 : Nat) (e pw : String) (db1 : Db) (a r : Jwt)
       (u : UserQueryResult) (now2 salt2 : Nat),
      AuthService.login db now1 salt1 e pw = .ok (db1, a, r) →
      UserService.findByEmail db e true = some u →
      AuthController.refresh (UserService.removeRefreshToken db1 u.id) now2 salt2 r =
        .error (.forbidden "Token expired or invalid.")) := by
  refine ⟨?_, ?_, ?_⟩
  · intro db uid h
    refine ⟨by simp [UserService.updateRefreshToken], ?_, ?_⟩
    · intro d hd hid
      obtain ⟨x, hx, hfx⟩ :=
        List.mem_map.mp (by simpa [UserService.updateRefreshToken] using hd)
      by_cases hc : x.id = uid
      · rw [← hfx]
        simp [hc]
      · rw [← hfx] at hid
        simp [hc] at hid
    · intro d hd hid
      obtain ⟨x, hx, hfx⟩ :=
        List.mem_map.mp (by simpa [UserService.removeRefreshToken] using hd)
      by_cases hc : x.id = uid
      · rw [← hfx]
        simp [hc]
      · rw [← hfx] at hid
        simp [hc] at hid
  · intro db now1 salt1 t db' a r now2 salt2 hok hne
    have htry : AuthController.refreshTry db now1 salt1 t = .ok (db', a, r) := by
      unfold AuthController.refresh at hok
      split at hok
      · rename_i v hv
        injection hok with h2
        rw [h2] at hv
        exact hv
      · cases hok
    obtain ⟨d, stored, hver, hfind, hstored, hcmp, ha, hr, hdb'⟩ := refreshTry_ok_inv htry
    have hfind' : db'.users.find? (fun u => u.email == t.payload.email) =
        some { d with refreshToken := some (bcryptHash r salt1) } := by
      rw [hdb']
      show (UserService.updateRefreshToken db
        (projectUser false d).id (some (bcryptHash r salt1))).users.find? _ = _
      rw [find?_updateRefreshToken, hfind]
      simp [projectUser]
    have hcmp2 : bcryptCompare t (bcryptHash r salt1) = false := by
      show (r == t) = false
      exact beq_eq_false_iff_ne.mpr (Ne.symm hne)
    cases hv2 : jwtVerify t .refresh now2 with
    | none =>
      simp only [AuthController.refresh, AuthController.refreshTry, hv2]
    | some p =>
      have hp : p = t.payload := (jwtVerify_some hv2).1
      subst hp
      simp only [AuthController.refresh, AuthController.refreshTry, hv2,
        UserService.findByEmail, hfind', Option.map_some']
      simp [projectUser, Option.join, hcmp2]
  · intro db now1 salt1 e pw db1 a r u now2 salt2 hlogin hu
    obtain ⟨d, hfind, hcmp, ha, hr, hdb1⟩ := login_ok_inv hlogin
    have hu' : u = projectUser true d := by
      unfold UserService.findByEmail at hu
      rw [hfind] at hu
      exact (Option.some.inj hu).symm
    have huid : u.id = d.id := by
      rw [hu']
      rfl
    have hde : d.email = e := by
      have hb := List.find?_some hfind
      exact beq_iff_eq.mp hb
    have hdb2 : UserService.removeRefreshToken db1 u.id =
        UserService.updateRefreshToken
          (UserService.updateRefreshToken db d.id (some (bcryptHash r salt1)))
          d.id none := by
      rw [removeRefreshToken_eq_update, huid, hdb1]
      rfl
    have hpe : r.payload.email = d.email := by
      rw [hr]
      rfl
    have hfind2 : (UserService.removeRefreshToken db1 u.id).users.find?
        (fun x => x.email == r.payload.email) = some { d with refreshToken := none } := by
      have hpede : r.payload.email = e := hpe.trans hde
      rw [hdb2, hpede]
      rw [find?_updateRefreshToken, find?_updateRefreshToken, hfind]
      simp
    cases hv2 : jwtVerify r .refresh now2 with
    | none =>
      simp only [AuthController.refresh, AuthController.refreshTry, hv2]
    | some p =>
      have hp : p = r.payload := (jwtVerify_some hv2).1
      subst hp
      simp only [AuthController.refresh, AuthController.refreshTry, hv2,
        UserService.findByEmail, hfind2, Option.map_some']
      simp [projectUser, Option.join]

/-- C2 witness: a concrete one-user store — the store update preserves the
user count and overwrites the single hash field; a concrete successful
refresh rotates the hash so that presenting the old token again is
rejected with the uniform Forbidden; a concrete login followed by logout
leaves the last-issued refresh token rejected with the uniform
Forbidden. -/
theorem refresh_hash_rotation_invalidates_old_witness :
    (UserService.updateRefreshToken
        { users := [{ id := "1", email := "a@x.com", password := ⟨"pw", 0⟩,
                      isActive := true,
                      refreshToken := some ⟨{ payload := { sub := "1", email := "a@x.com",
                                                           roles := none, isActive := true },
                                              secret := .refresh, iat := 0, exp := 100 }, 5⟩,
                      tenants := [] }], nextId := 2 }
        "1" none).users.length =
      ({ users := [{ id := "1", email := "a@x.com", password := ⟨"pw", 0⟩,
                     isActive := true,
                     refreshToken := some ⟨{ payload := { sub := "1", email := "a@x.com",
                                                          roles := none, isActive := true },
                                             secret := .refresh, iat := 0, exp := 100 }, 5⟩,
                     tenants := [] }], nextId := 2 } : Db).users.length ∧
    AuthController.refresh
      { users := [{ id := "1", email := "a@x.com", password := ⟨"pw", 0⟩,
                    isActive := true,
                    refreshToken := some ⟨{ payload := { sub := "1", email := "a@x.com",
                                                         roles := none, isActive := true },
                                            secret := .refresh, iat := 1, exp := 604801 }, 7⟩,
                    tenants := [] }], nextId := 2 }
      2 8
      { payload := { sub := "1", email := "a@x.com", roles := none, isActive := true },
        secret := .refresh, iat := 0, exp := 100 } =
      .error (.forbidden "Token expired or invalid.") ∧
    AuthController.refresh
      (UserService.removeRefreshToken
        { users := [{ id := "1", email := "a@x.com", password := ⟨"pw", 3⟩,
                      isActive := true,
                      refreshToken := some ⟨{ payload := { sub := "1", email := "a@x.com",
                                                           roles := none, isActive := true },
                                              secret := .refresh, iat := 0, exp := 604800 }, 9⟩,
                      tenants := [] }], nextId := 2 }
        (projectUser true { id := "1", email := "a@x.com", password := ⟨"pw", 3⟩,
                            isActive := true, refreshToken := none, tenants := [] }).id)
      5 11
      { payload := { sub := "1", email := "a@x.com", roles := none, isActive := true },
        secret := .refresh, iat := 0, exp := 604800 } =
      .error (.forbidden "Token expired or invalid.") :=
  ⟨(refresh_hash_rotation_invalidates_old.1
      { users := [{ id := "1", email := "a@x.com", password := ⟨"pw", 0⟩,
                    isActive := true,
                    refreshToken := some ⟨{ payload := { sub := "1", email := "a@x.com",
                                                         roles := none, isActive := true },
                                            secret := .refresh, iat := 0, exp := 100 }, 5⟩,
                    tenants := [] }], nextId := 2 }
      "1" none).1,
   refresh_hash_rotation_invalidates_old.2.1
      { users := [{ id := "1", email := "a@x.com", password := ⟨"pw", 0⟩,
                    isActive := true,
                    refreshToken := some ⟨{ payload := { sub := "1", email := "a@x.com",
                                                         roles := none, isActive := true },
                                            secret := .refresh, iat := 0, exp := 100 }, 5⟩,
                    tenants := [] }], nextId := 2 }
      1 7
      { payload := { sub := "1", email := "a@x.com", roles := none, isActive := true },
        secret := .refresh, iat := 0, exp := 100 }
      { users := [{ id := "1", email := "a@x.com", password := ⟨"pw", 0⟩,
                    isActive := true,
                    refreshToken := some ⟨{ payload := { sub := "1", email := "a@x.com",
                                                         roles := none, isActive := true },
                                            secret := .refresh, iat := 1, exp := 604801 }, 7⟩,
                    tenants := [] }], nextId := 2 }
      { payload := { sub := "1", email := "a@x.com", roles := none, isActive := true },
        secret := .access, iat := 1, exp := 3601 }
      { payload := { sub := "1", email := "a@x.com", roles := none, isActive := true },
        secret := .refresh, iat := 1, exp := 604801 }
      2 8 (by decide) (by decide),
   refresh_hash_rotation_invalidates_old.2.2
      { users := [{ id := "1", email := "a@x.com", password := ⟨"pw", 3⟩,
                    isActive := true, refreshToken := none, tenants := [] }], nextId := 2 }
      0 9 "a@x.com" "pw"
      { users := [{ id := "1", email := "a@x.com", password := ⟨"pw", 3⟩,
                    isActive := true,
                    refreshToken := some ⟨{ payload := { sub := "1", email := "a@x.com",
                                                         roles := none, isActive := true },
                                            secret := .refresh, iat := 0, exp := 604800 }, 9⟩,
                    tenants := [] }], nextId := 2 }
      { payload := { sub := "1", email := "a@x.com", roles := none, isActive := true },
        secret := .access, iat := 0, exp := 3600 }
      { payload := { sub := "1", email := "a@x.com", roles := none, isActive := true },
        secret := .refresh, iat := 0, exp := 604800 }
      (projectUser true { id := "1", email := "a@x.com", password := ⟨"pw", 3⟩,
                          isActive := true, refreshToken := none, tenants := [] })
      5 11 (by decide) (by decide)⟩

/-- C10: `isActive` rides in the token payload but is never enforced — a
user with `isActive = false` still logs in successfully with correct
credentials, still refreshes successfully with a hash-matching token, and
the JWT strategy validates every payload into an identity without
inspecting `isActive`. -/
theorem is_active_never_enforced :
    (∀ (db : Db) (now salt : Nat) (e pw : String) (d : UserDoc),
      db.users.find? (fun u => u.email == e) = some d →
      d.isActive = false →
      bcryptCompare pw d.password = true →
      AuthService.login db now salt e pw =
        .ok (AuthService.updateRefreshToken db d.id
              (AuthService.generateTokens (projectUser true d) now).2 salt,
             AuthService.generateTokens (projectUser true d) now)) ∧
    (∀ (db : Db) (now salt : Nat) (t : Jwt) (d : UserDoc) (stored : Hashed Jwt),
      t.secret = .refresh → now < t.exp →
      db.users.find? (fun u => u.email == t.payload.email) = some d →
      d.isActive = false →
      d.refreshToken = some stored →
      bcryptCompare t stored = true →
      AuthController.refresh db now salt t =
        .ok (AuthService.updateRefreshToken db d.id
              (AuthService.generateTokens (projectUser false d) now).2 salt,
             AuthService.generateTokens (projectUser false d) now)) ∧
    (∀ p : JwtPayload,
      JwtStrategy.validate p =
        { userId := p.sub, email := p.email, roles := p.roles, isActive := p.isActive }) := by
  refine ⟨?_, ?_, fun p => rfl⟩
  · intro db now salt e pw d hfind hinact hcmp
    simp only [AuthService.login, UserService.findByEmail, hfind, Option.map_some']
    simp [projectUser, hcmp]
  · intro db now salt t d stored hs ht hfind hinact hstored hcmp
    have hv : jwtVerify t .refresh now = some t.payload := by
      unfold jwtVerify
      rw [if_pos ⟨hs, ht⟩]
    simp only [AuthController.refresh, AuthController.refreshTry, hv,
      UserService.findByEmail, hfind, Option.map_some']
    simp [projectUser, hstored, Option.join, hcmp]

/-- C10 witness: a concrete deactivated user (`isActive = false`) logs in
and refreshes successfully; the strategy validates a payload with
`isActive = false` into an identity. -/
theorem is_active_never_enforced_witness :
    AuthService.login
      { users := [{ id := "1", email := "a@x.com", password := ⟨"pw", 2⟩,
                    isActive := false, refreshToken := none, tenants := [] }], nextId := 2 }
      1 4 "a@x.com" "pw" =
      .ok (AuthService.updateRefreshToken
            { users := [{ id := "1", email := "a@x.com", password := ⟨"pw", 2⟩,
                          isActive := false, refreshToken := none, tenants := [] }],
              nextId := 2 }
            "1"
            (AuthService.generateTokens
              (projectUser true { id := "1", email := "a@x.com", password := ⟨"pw", 2⟩,
                                  isActive := false, refreshToken := none, tenants := [] })
              1).2 4,
           AuthService.generateTokens
            (projectUser true { id := "1", email := "a@x.com", password := ⟨"pw", 2⟩,
                                isActive := false, refreshToken := none, tenants := [] })
            1) ∧
    AuthController.refresh
      { users := [{ id := "1", email := "a@x.com", password := ⟨"pw", 2⟩,
                    isActive := false,
                    refreshToken := some ⟨{ payload := { sub := "1", email := "a@x.com",
                                                         roles := none, isActive := false },
                                            secret := .refresh, iat := 0, exp := 50 }, 3⟩,
                    tenants := [] }], nextId := 2 }
      1 4
      { payload := { sub := "1", email := "a@x.com", roles := none, isActive := false },
        secret := .refresh, iat := 0, exp := 50 } =
      .ok (AuthService.updateRefreshToken
            { users := [{ id := "1", email := "a@x.com", password := ⟨"pw", 2⟩,
                          isActive := false,
                          refreshToken := some ⟨{ payload := { sub := "1", email := "a@x.com",
                                                               roles := none, isActive := false },
                                                  secret := .refresh, iat := 0, exp := 50 }, 3⟩,
                          tenants := [] }], nextId := 2 }
            "1"
            (AuthService.generateTokens
              (projectUser false { id := "1", email := "a@x.com", password := ⟨"pw", 2⟩,
                                   isActive := false,
                                   refreshToken := some
                                     ⟨{ payload := { sub := "1", email := "a@x.com",
                                                     roles := none, isActive := false },
                                        secret := .refresh, iat := 0, exp := 50 }, 3⟩,
                                   tenants := [] })
              1).2 4,
           AuthService.generateTokens
            (projectUser false { id := "1", email := "a@x.com", password := ⟨"pw", 2⟩,
                                 isActive := false,
                                 refreshToken := some
                                   ⟨{ payload := { sub := "1", email := "a@x.com",
                                                   roles := none, isActive := false },
                                      secret := .refresh, iat := 0, exp := 50 }, 3⟩,
                                 tenants := [] })
            1) ∧
    JwtStrategy.validate { sub := "1", email := "a@x.com", roles := none, isActive := false } =
      { userId := "1", email := "a@x.com", roles := none, isActive := false } :=
  ⟨is_active_never_enforced.1
      { users := [{ id := "1", email := "a@x.com", password := ⟨"pw", 2⟩,
                    isActive := false, refreshToken := none, tenants := [] }], nextId := 2 }
      1 4 "a@x.com" "pw"
      { id := "1", email := "a@x.com", password := ⟨"pw", 2⟩,
        isActive := false, refreshToken := none, tenants := [] }
      (by decide) (by decide) (by decide),
   is_active_never_enforced.2.1
      { users := [{ id := "1", email := "a@x.com", password := ⟨"pw", 2⟩,
                    isActive := false,
                    refreshToken := some ⟨{ payload := { sub := "1", email := "a@x.com",
                                                         roles := none, isActive := false },
                                            secret := .refresh, iat := 0, exp := 50 }, 3⟩,
                    tenants := [] }], nextId := 2 }
      1 4
      { payload := { sub := "1", email := "a@x.com", roles := none, isActive := false },
        secret := .refresh, iat := 0, exp := 50 }
      { id := "1", email := "a@x.com", password := ⟨"pw", 2⟩,
        isActive := false,
        refreshToken := some ⟨{ payload := { sub := "1", email := "a@x.com",
                                             roles := none, isActive := false },
                                secret := .refresh, iat := 0, exp := 50 }, 3⟩,
        tenants := [] }
      ⟨{ payload := { sub := "1", email := "a@x.com", roles := none, isActive := false },
         secret := .refresh, iat := 0, exp := 50 }, 3⟩
      (by decide) (by decide) (by decide) (by decide) (by decide) (by decide),
   is_active_never_enforced.2.2
      { sub := "1", email := "a@x.com", roles := none, isActive := false }⟩

end SaasForge
